import Mathlib

/-!
Shallow embedding of `src/coapthon/layers/blocklayer_async.py` (CoAPthon3
blockwise-transfer layer) and verification of the frozen claims about it.

Modelling conventions, shared by all definitions below:

* Python `str` payloads are `List Char`; `None` is `Option.none`.
* Python `time.time()` is a single `now : Int` parameter per entry-point
  call (the layer never depends on time advancing inside one call as far
  as the verified properties are concerned).
* Python exceptions that escape the layer are the `Except` error channel;
  the exception kinds that can actually occur in this file are enumerated
  in `PyErr`.
* Python dictionaries are association lists preserving insertion order,
  keyed by the string `str(host) + str(port) + str(token)`.  The real code
  applies the builtin `hash` to that string; `hash` is a function, so two
  equal strings always receive the same key, and the association-list
  model is the standard no-hash-collision abstraction of the dict.
-/

/-- Decidable equality of `Except` results, used to evaluate the embedded
functions at concrete inputs. -/
instance {e a : Type} [DecidableEq e] [DecidableEq a] : DecidableEq (Except e a) := fun x y =>
  match x, y with
  | .error e1, .error e2 =>
    if h : e1 = e2 then .isTrue (by rw [h]) else .isFalse (by intro hc; cases hc; exact h rfl)
  | .ok v1, .ok v2 =>
    if h : v1 = v2 then .isTrue (by rw [h]) else .isFalse (by intro hc; cases hc; exact h rfl)
  | .error e1, .ok v2 => .isFalse (fun hc => Except.noConfusion hc)
  | .ok v1, .error e2 => .isFalse (fun hc => Except.noConfusion hc)

/-- Exception kinds that can escape the block layer. `blocked` models the
unbounded `time.sleep(0.5)` polling loop of `receive_request` (lines
196-198), which in a single-threaded execution never returns: the call
does not return normally, which is all the claims need. -/
inductive PyErr where
  | indexError
  | runtimeError
  | attributeError
  | blocked
deriving DecidableEq, Repr

/-- Embeds class `PayloadBlock` (lines 17-37): a byte slice, its
content-type, its block-option triple `(num, m, size)` stored as `_bo`,
and the tri-state acknowledgement flag `_ack` (`None`/`False`/`True`). -/
structure PayloadBlock where
  payload : Option (List Char)
  content_type : Option Nat
  bo : Nat × Nat × Nat
  ack : Option Bool
deriving DecidableEq, Repr

/-- A `PayloadBlock()` with all defaults (line 18). -/
def pbDefault : PayloadBlock := ⟨none, none, (0, 0, 0), none⟩

/-- Embeds `PayloadBlock.__str__` (lines 36-37): the payload if set, else
the empty string. -/
def PayloadBlock.str (b : PayloadBlock) : List Char := b.payload.getD []

/-- Embeds class `BlockItem` (lines 40-138).  Field names follow the
source; `parts` is the `_partial_payload` list. -/
structure BlockItem where
  bo_num : Nat
  bo_m : Nat
  bo_size : Nat
  content_type : Option Nat
  creation_time : Int
  last_access : Int
  timeout : Option Int
  total_size : Nat
  parts : List PayloadBlock
deriving DecidableEq, Repr

/-- Embeds `BlockItem._fill_partial_payload` (lines 67-73).  The Python
code first builds a list of `ceil(total_size / bo_size)` placeholders and
then overwrites every index `i // bo_size` for `i in range(0, total_size,
bo_size)`; since that loop hits every index exactly once, the result is
the map below.  `payload[i:i+size]` on a too-short string yields the empty
string, hence `drop`/`take`.  All created fragments carry `_ack = None`.
(For `bo_size = 0` the Python code raises `ZeroDivisionError`; every claim
below assumes a positive block size, and this definition is only appealed
to under that assumption.) -/
def BlockItem.fillPartialPayload (it : BlockItem) (payload : Option (List Char)) : BlockItem :=
  let count := (it.total_size + it.bo_size - 1) / it.bo_size
  { it with parts := (List.range count).map (fun num =>
      { payload := payload.map (fun p => (p.drop (num * it.bo_size)).take it.bo_size)
        content_type := it.content_type
        bo := (num, if num + 1 < count then 1 else 0, it.bo_size)
        ack := none }) }

/-- Embeds `BlockItem.__init__` (lines 41-65): `_total_size` is 0 for a
null payload and the payload length otherwise; the fragment list is
filled only when the total size is positive.  Both timestamps are stamped
to now. -/
def BlockItem.make (bo_num bo_m bo_size : Nat) (payload : Option (List Char))
    (content_type : Option Nat) (timeout : Option Int) (now : Int) : BlockItem :=
  let total := match payload with
    | none => 0
    | some p => p.length
  let it : BlockItem :=
    { bo_num := bo_num, bo_m := bo_m, bo_size := bo_size, content_type := content_type
      creation_time := now, last_access := now, timeout := timeout
      total_size := total, parts := [] }
  if total > 0 then it.fillPartialPayload payload else it

/-- Embeds `BlockItem.__setitem__` (lines 75-77): refresh the last-access
timestamp, then assign index `i`; `none` is the `IndexError` raised when
`i` is out of range. -/
def BlockItem.setIdx (it : BlockItem) (i : Nat) (o : PayloadBlock) (now : Int) : Option BlockItem :=
  if i < it.parts.length then
    some { it with last_access := now, parts := it.parts.set i o }
  else none

/-- Embeds `BlockItem.__getitem__` (lines 79-81): refresh the last-access
timestamp and read index `i` (`none` = `IndexError`). -/
def BlockItem.getIdx (it : BlockItem) (i : Nat) (now : Int) : BlockItem × Option PayloadBlock :=
  ({ it with last_access := now }, it.parts.get? i)

/-- Embeds the idiom `item[i].acked = True` used by the layer (lines 262,
320, 336): `__getitem__` refreshes the timestamp and the acknowledged
flag of the aliased list entry is set to `True`.  Callers only use it on
an in-range index. -/
def BlockItem.ackAt (it : BlockItem) (i : Nat) (now : Int) : BlockItem :=
  { it with last_access := now
            parts := it.parts.set i { it.parts.getD i pbDefault with ack := some true } }

/-- Embeds the `BlockItem.payload` property (lines 87-92): join the
string renderings of all fragments; return `None` when the join is
empty. -/
def BlockItem.payload (it : BlockItem) : Option (List Char) :=
  let pl := (it.parts.map PayloadBlock.str).flatten
  if pl.length > 0 then some pl else none

/-- Embeds the `BlockItem.block_options` getter (lines 94-96). -/
def BlockItem.block_options (it : BlockItem) : Nat × Nat × Nat :=
  (it.bo_num, it.bo_m, it.bo_size)

/-- Embeds the `BlockItem.block_options` setter (lines 98-106): when the
size changes, read the reassembled payload, change the block size and
re-slice; in every case update the cursor num and more-flag. -/
def BlockItem.setBlockOptions (it : BlockItem) (v : Nat × Nat × Nat) : BlockItem :=
  let num := v.1
  let m := v.2.1
  let size := v.2.2
  let it1 := if size ≠ it.bo_size then
      ({ it with bo_size := size } : BlockItem).fillPartialPayload it.payload
    else it
  { it1 with bo_num := num, bo_m := m }

/-- Embeds the `BlockItem.total_size` setter (lines 112-115): record the
new total size and re-slice against a null payload. -/
def BlockItem.setTotalSize (it : BlockItem) (v : Nat) : BlockItem :=
  ({ it with total_size := v } : BlockItem).fillPartialPayload none

/-- Embeds the `BlockItem.complete` property (lines 117-122): false as
soon as some fragment has `acked is not True`, vacuously true on an empty
fragment list. -/
def BlockItem.complete (it : BlockItem) : Bool :=
  it.parts.all (fun p => p.ack == some true)

/-- Embeds the `BlockItem.duration` property (lines 83-85). -/
def BlockItem.duration (it : BlockItem) : Int :=
  it.last_access - it.creation_time

/-- Embeds `BlockItem.expired` (lines 134-138): false without a timeout,
otherwise true iff the time since the last access exceeds it. -/
def BlockItem.expired (it : BlockItem) (now : Int) : Bool :=
  match it.timeout with
  | none => false
  | some t => now - it.last_access > t

/-- The cyclic search loop of `next_block_options` (lines 126-127):
starting at `cur`, step `num ← (num + 1) % len` while the fragment at the
cursor is acknowledged.  The fuel argument is instantiated with the list
length, which visits every cyclic position once; the loop in the source
terminates exactly when some fragment is unacknowledged, which is the
hypothesis under which this function is ever related to the source. -/
def cyclicFind (parts : List PayloadBlock) : Nat → Nat → Nat
  | 0, cur => cur
  | fuel + 1, cur =>
    if (parts.getD cur pbDefault).ack = some true then
      cyclicFind parts fuel ((cur + 1) % parts.length)
    else cur

/-- Embeds `BlockItem.next_block_options` (lines 124-129): when not
complete, advance the cursor cyclically to the next unacknowledged
fragment (an out-of-range starting cursor raises `IndexError` at the loop
condition); then set the cursor more-flag from the fragment at the cursor
(again `IndexError` when out of range) and return the block-option
triple. -/
def BlockItem.nextBlockOptions (it : BlockItem) : Except PyErr (BlockItem × (Nat × Nat × Nat)) :=
  let num? : Option Nat :=
    if it.complete then some it.bo_num
    else if it.bo_num < it.parts.length then
      some (cyclicFind it.parts it.parts.length it.bo_num)
    else none
  match num? with
  | none => .error .indexError
  | some num =>
    match it.parts.get? num with
    | none => .error .indexError
    | some frag =>
      .ok ({ it with bo_num := num, bo_m := frag.bo.2.1 },
           (num, frag.bo.2.1, it.bo_size))

/-- Embeds the message objects (`Request`/`Response`/`Message`) exactly in
the fields the block layer reads or writes; `del field` is assignment of
`none`, fresh `Response()` objects start with every field `none`.
`mtype` is the message `type` field (set only to RST by `_error`). -/
structure Msg where
  source : Option (String × Nat)
  destination : Option (String × Nat)
  token : Option String
  payload : Option (List Char)
  content_type : Option Nat
  block1 : Option (Nat × Nat × Nat)
  block2 : Option (Nat × Nat × Nat)
  size1 : Option Nat
  size2 : Option Nat
  code : Option Nat
  mtype : Option Nat
  mid : Option Nat
  duration : Option Int
deriving DecidableEq, Repr

/-- A message with every field unset. -/
def emptyMsg : Msg :=
  ⟨none, none, none, none, none, none, none, none, none, none, none, none, none⟩

/-- Embeds the `Transaction` wrapper in the fields the layer touches. -/
structure Transaction where
  request : Msg
  response : Option Msg
  block_transfer : Bool
deriving DecidableEq, Repr

/-- Modelled from the spec: the numeric protocol constants the layer
consumes from `coapthon.defines`, which is not under `src/`
(`MAX_PAYLOAD`, the status codes CONTENT 2.05, CONTINUE 2.31,
UNSUPPORTED_CONTENT_FORMAT 4.15, REQUEST_ENTITY_INCOMPLETE 4.08, and the
RST message type).  Only their distinctness matters to the claims. -/
def MAX_PAYLOAD : Nat := 1024

def CONTENT : Nat := 69

def CONTINUE : Nat := 95

def UNSUPPORTED_CONTENT_FORMAT : Nat := 143

def REQUEST_ENTITY_INCOMPLETE : Nat := 136

def RST : Nat := 3

/-- Python `str` applied to an optional token: `str(None)` is the string
`"None"`, a string token renders as itself. -/
def pyStrOpt : Option String → String
  | none => "None"
  | some s => s

/-- Embeds the exchange-key derivation (lines 187-188, 295-296, 384-385,
433-434): the layer computes `hash(str(host) + str(port) + str(token))`.
This definition is the concatenated string itself; the builtin `hash` is
a function of it, so equal concatenations always yield equal dictionary
keys, and the session tables below are keyed by this string (the
standard abstraction of the dict assuming no hash collision between
distinct strings). -/
def keyString (host : String) (port : Nat) (token : Option String) : String :=
  host ++ toString port ++ pyStrOpt token

/-- A session table: a Python dict in insertion order. -/
abbrev Table := List (String × BlockItem)

/-- Dict lookup: first (and by construction only) binding of the key. -/
def lookupT (tbl : Table) (k : String) : Option BlockItem :=
  match tbl with
  | [] => none
  | (k', v) :: rest => if k' = k then some v else lookupT rest k

/-- Dict assignment: replace in place when present, else append (Python
dicts keep insertion order). -/
def insertT (tbl : Table) (k : String) (v : BlockItem) : Table :=
  match tbl with
  | [] => [(k, v)]
  | (k', v') :: rest => if k' = k then (k, v) :: rest else (k', v') :: insertT rest k v

/-- Dict deletion of a key. -/
def eraseT (tbl : Table) (k : String) : Table :=
  match tbl with
  | [] => []
  | (k', v') :: rest => if k' = k then rest else (k', v') :: eraseT rest k

/-- Embeds the `BlockLayer` instance state (lines 159-164): the four
session tables and the session timeout (180 seconds). -/
structure LayerState where
  session_timeout : Int
  block1_sent : Table
  block2_sent : Table
  block1_receive : Table
  block2_receive : Table
deriving DecidableEq, Repr

/-- True when the loop `for k, v in session.items(): if v.expired(): del
session[k]` completes for this table, i.e. when no entry is expired: in
Python 3 `dict.items()` is a view, and deleting an entry makes the very
next iterator step raise `RuntimeError: dictionary changed size during
iteration`, so the loop runs to completion (and then deletes nothing)
exactly when no entry is expired. -/
def sweepOk (tbl : Table) (now : Int) : Bool :=
  tbl.all (fun kv => !(kv.2.expired now))

/-- True when no entry of any of the four tables is expired. -/
def noneExpired (st : LayerState) (now : Int) : Bool :=
  sweepOk st.block1_sent now && sweepOk st.block2_sent now &&
  sweepOk st.block1_receive now && sweepOk st.block2_receive now

/-- Embeds `BlockLayer._clean_session` (lines 166-170) under Python 3
semantics: iterate the four tables in order; a table with an expired
entry deletes it and then raises `RuntimeError` out of the layer (see
`sweepOk`), so the call returns normally, with every table unchanged,
exactly when nothing is expired.  (The partially swept table at the raise
is not observable through any claim and is not carried by the error.) -/
def cleanSession (st : LayerState) (now : Int) : Except PyErr LayerState :=
  if noneExpired st now then .ok st else .error .runtimeError

/-- Embeds `BlockLayer._error` (lines 477-494): set `block_transfer`,
synthesize a reset response echoing the request source and token with the
given status code. -/
def errorTransaction (tr : Transaction) (code : Nat) : Transaction :=
  { tr with
    block_transfer := true
    response := some { emptyMsg with
      destination := tr.request.source
      mtype := some RST
      token := tr.request.token
      code := some code } }

/-- Embeds the GET branch of `BlockLayer.receive_request` (lines 191-232),
entered with the request block2 triple already unpacked and stripped.
When an entry exists whose total size is still 0 the source polls
`time.sleep(0.5)` forever waiting for another thread; in this
single-threaded model that call never returns (`PyErr.blocked`).  On the
known-entry path the source indexes the entry at `num` three times: once
inside `try/except IndexError` (line 214), once unguarded in the
condition of line 222 (an out-of-range `num` therefore raises), and once
inside a bare `try/except` (line 224). -/
def receiveRequestGET (st : LayerState) (tr : Transaction) (num m size : Nat)
    (key : String) (now : Int) : Except PyErr (LayerState × Transaction) :=
  match lookupT st.block2_receive key with
  | some entry0 =>
    if entry0.total_size = 0 then .error .blocked
    else
      let entry1 := entry0.setBlockOptions (num, m, size)
      let resp0 := { emptyMsg with
        destination := tr.request.source
        token := tr.request.token
        code := some CONTENT }
      let acc1 := entry1.getIdx num now
      let entry2 := acc1.1
      let resp1 := match acc1.2 with
        | some frag => { resp0 with payload := frag.payload, block2 := some frag.bo }
        | none => { resp0 with payload := none, block2 := some (num, m, size) }
      let resp2 := { resp1 with size2 := some entry2.total_size }
      let acc2 := entry2.getIdx num now
      let entry3 := acc2.1
      match acc2.2 with
      | none => .error .indexError
      | some frag2 =>
        let resp3 := if tr.request.content_type ≠ frag2.content_type then
            { resp2 with content_type := frag2.content_type }
          else resp2
        .ok ({ st with block2_receive := insertT st.block2_receive key entry3 },
             { tr with block_transfer := true, response := some resp3 })
  | none =>
    let entry := BlockItem.make num m size none none (some st.session_timeout) now
    .ok ({ st with block2_receive := insertT st.block2_receive key entry }, tr)

/-- Embeds the PUT/POST branch of `BlockLayer.receive_request` (lines
234-277) after the content-type guard: `entry0` is the table entry (the
pre-existing one, or the fresh one of lines 251-253 — in the source the
fresh entry is inserted into the dict immediately and mutated in place;
since nothing else reads the table during the call, inserting the final
value at the end is observationally the same on every normal return).
Declared-size update, fragment write (an out-of-range `num` raises
`IndexError`, e.g. for a first block without `size1` the fragment list is
empty and the write at line 259 raises), acknowledgement, then the
completion check of lines 264-277. -/
def receiveRequestB1go (st : LayerState) (tr : Transaction) (entry0 : BlockItem)
    (num m size : Nat) (key : String) (now : Int) : Except PyErr (LayerState × Transaction) :=
  let entry1 := match tr.request.size1 with
    | some s1 => if s1 ≠ entry0.total_size then entry0.setTotalSize s1 else entry0
    | none => entry0
  match entry1.setIdx num ⟨tr.request.payload, tr.request.content_type, (num, m, size), none⟩ now with
  | none => .error .indexError
  | some entry2 =>
    let entry3 := entry2.ackAt num now
    if entry3.complete then
      .ok ({ st with block1_receive := eraseT st.block1_receive key },
           { tr with request := { tr.request with
               payload := entry3.payload
               duration := some entry3.duration } })
    else
      .ok ({ st with block1_receive := insertT st.block1_receive key entry3 },
           { tr with
             block_transfer := true
             response := some { emptyMsg with
               destination := tr.request.source
               token := tr.request.token
               code := some CONTINUE
               block1 := some (num, m, size) } })

/-- Embeds the PUT/POST branch of `BlockLayer.receive_request` (lines
234-277), entered with the block1 triple already unpacked and stripped:
the content-type mismatch of an existing entry returns the `_error`
response with the table untouched; otherwise a missing entry is created
from this first fragment. -/
def receiveRequestB1 (st : LayerState) (tr : Transaction) (num m size : Nat)
    (key : String) (now : Int) : Except PyErr (LayerState × Transaction) :=
  match lookupT st.block1_receive key with
  | some entry0 =>
    if tr.request.content_type ≠ entry0.content_type then
      .ok (st, errorTransaction tr UNSUPPORTED_CONTENT_FORMAT)
    else
      receiveRequestB1go st tr entry0 num m size key now
  | none =>
    let entry0 := BlockItem.make num m size none tr.request.content_type
      (some st.session_timeout) now
    receiveRequestB1go st tr entry0 num m size key now

/-- Embeds `BlockLayer.receive_request` (lines 172-278): sweep, key
derivation from the request source and token, reset of `block_transfer`,
then the GET (block2) branch, the PUT/POST (block1) branch, or the plain
pass-through.  A request without a source raises at the tuple unpacking
of line 187. -/
def receive_request (st : LayerState) (tr : Transaction) (now : Int) :
    Except PyErr (LayerState × Transaction) :=
  match cleanSession st now with
  | .error e => .error e
  | .ok st1 =>
    match tr.request.source with
    | none => .error .attributeError
    | some (host, port) =>
      let key := keyString host port tr.request.token
      let tr1 : Transaction := { tr with block_transfer := false }
      match tr1.request.block2 with
      | some (num, m, size) =>
        receiveRequestGET st1 { tr1 with request := { tr1.request with block2 := none } }
          num m size key now
      | none =>
        match tr1.request.block1 with
        | some (num, m, size) =>
          receiveRequestB1 st1 { tr1 with request := { tr1.request with block1 := none } }
            num m size key now
        | none => .ok (st1, tr1)

/-- Embeds lines 318-331 of the GET branch of
`BlockLayer.receive_response`, with `entry1` the dict entry after the
size2 update of lines 314-316: the fragment write and acknowledgement at
`num` (an out-of-range `num` raises `IndexError`), the cursor update
through the block-options setter, and the completion check: complete
deletes the entry and substitutes the reassembled payload into the
response, otherwise the follow-up request is pointed at
`next_block_options()`. -/
def receiveResponseB2tail (st : LayerState) (tr : Transaction) (resp : Msg)
    (entry1 : BlockItem) (num m size : Nat) (key : String) (now : Int) :
    Except PyErr (LayerState × Transaction) :=
  match entry1.setIdx num ⟨resp.payload, resp.content_type, (num, m, size), none⟩ now with
  | none => .error .indexError
  | some entry2 =>
    let entry3 := (entry2.ackAt num now).setBlockOptions (num, m, size)
    if entry3.complete then
      .ok ({ st with block2_sent := eraseT st.block2_sent key },
           { tr with response := some { resp with payload := entry3.payload } })
    else
      match entry3.nextBlockOptions with
      | .error e => .error e
      | .ok (entry4, triple) =>
        .ok ({ st with block2_sent := insertT st.block2_sent key entry4 },
             { tr with
               block_transfer := true
               request := { tr.request with mid := none, block2 := some triple } })

/-- Embeds lines 314-316 of the GET branch of
`BlockLayer.receive_response` — the declared-size2 update of the selected
entry — and hands over to `receiveResponseB2tail`. -/
def receiveResponseB2go (st : LayerState) (tr : Transaction) (resp : Msg)
    (entry0 : BlockItem) (num m size : Nat) (key : String) (now : Int) :
    Except PyErr (LayerState × Transaction) :=
  let entry1 := match resp.size2 with
    | some s2 => if s2 ≠ entry0.total_size then entry0.setTotalSize s2 else entry0
    | none => entry0
  receiveResponseB2tail st tr resp entry1 num m size key now

/-- Embeds the GET branch of `BlockLayer.receive_response` (lines
299-331), entered with the response block2 triple unpacked (the option is
not stripped from the response on this path).  An existing entry with
positive total size and a differing content-type returns the `_error`
response (line 307); otherwise a missing entry — or one whose total size
is still 0 — is replaced by a fresh one (lines 310-312). -/
def receiveResponseB2 (st : LayerState) (tr : Transaction) (resp : Msg)
    (num m size : Nat) (key : String) (now : Int) : Except PyErr (LayerState × Transaction) :=
  match lookupT st.block2_sent key with
  | some e =>
    if e.total_size > 0 then
      if resp.content_type ≠ e.content_type then
        .ok (st, errorTransaction tr UNSUPPORTED_CONTENT_FORMAT)
      else receiveResponseB2go st tr resp e num m size key now
    else
      receiveResponseB2go st tr resp
        (BlockItem.make num m size none resp.content_type (some st.session_timeout) now)
        num m size key now
  | none =>
    receiveResponseB2go st tr resp
      (BlockItem.make num m size none resp.content_type (some st.session_timeout) now)
      num m size key now

/-- Embeds the PUT/POST branch of `BlockLayer.receive_response` (lines
333-355), entered with the response block1 triple unpacked and the table
entry for the key in hand.  The fragment at the confirmed number is
acknowledged (out of range raises `IndexError` at line 336), the
follow-up request gets `next_block_options()` as its block1 and the
fragment at the advanced cursor as its payload, `size1` is rewritten to
the total size, and when the transfer is complete only the request
block1 option is cleared — the table entry is not deleted. -/
def receiveResponseB1 (st : LayerState) (tr : Transaction) (entry0 : BlockItem)
    (n_num : Nat) (key : String) (now : Int) : Except PyErr (LayerState × Transaction) :=
  if n_num < entry0.parts.length then
    let entry1 := entry0.ackAt n_num now
    let req1 := { tr.request with mid := none, block1 := none }
    match entry1.nextBlockOptions with
    | .error e => .error e
    | .ok (entry2, triple) =>
      let req2 := { req1 with block1 := some triple }
      let acc := entry2.getIdx entry2.bo_num now
      let entry3 := acc.1
      match acc.2 with
      | none => .error .indexError
      | some frag =>
        let req3 := { req2 with payload := frag.payload, size1 := some entry3.total_size }
        if entry3.complete then
          .ok ({ st with block1_sent := insertT st.block1_sent key entry3 },
               { tr with request := { req3 with block1 := none } })
        else
          .ok ({ st with block1_sent := insertT st.block1_sent key entry3 },
               { tr with block_transfer := true, request := req3 })
  else .error .indexError

/-- Embeds `BlockLayer.receive_response` (lines 280-356): sweep, key
derivation from the response source and token, reset of
`block_transfer`, then the GET (block2) branch, the PUT/POST branch
(only when block1 is present AND the key is known, line 333), or the
plain pass-through.  A transaction without a response, or a response
without a source, raises at the attribute access of line 295. -/
def receive_response (st : LayerState) (tr : Transaction) (now : Int) :
    Except PyErr (LayerState × Transaction) :=
  match cleanSession st now with
  | .error e => .error e
  | .ok st1 =>
    match tr.response with
    | none => .error .attributeError
    | some resp =>
      match resp.source with
      | none => .error .attributeError
      | some (host, port) =>
        let key := keyString host port resp.token
        let tr1 : Transaction := { tr with block_transfer := false }
        match resp.block2 with
        | some (num, m, size) => receiveResponseB2 st1 tr1 resp num m size key now
        | none =>
          match resp.block1, lookupT st1.block1_sent key with
          | some (n_num, _n_m, _n_size), some entry0 =>
            receiveResponseB1 st1 tr1 entry0 n_num key now
          | _, _ => .ok (st1, tr1)

/-- Embeds `BlockLayer.receive_empty` (lines 358-367): a documented dummy
pass-through — it does not sweep the tables and returns the transaction
unchanged. -/
def receive_empty (st : LayerState) (_empty : Msg) (tr : Transaction) :
    LayerState × Transaction :=
  (st, tr)

/-- Embeds `BlockLayer.send_response` (lines 369-416): sweep, key
derivation from the request source and token; when an inbound block2
entry exists and the response has a payload, or the payload exceeds
`MAX_PAYLOAD`, slice the response payload into a fresh entry starting
either at the existing cursor or at `(0, 1, MAX_PAYLOAD)`, possibly set
`size2`, and rewrite the response to carry fragment `num` (a null payload
and the requested triple when `num` is out of range, lines 409-414).  A
transaction without a response raises at the attribute access of line
388. -/
def send_response (st : LayerState) (tr : Transaction) (now : Int) :
    Except PyErr (LayerState × Transaction) :=
  match cleanSession st now with
  | .error e => .error e
  | .ok st1 =>
    match tr.request.source with
    | none => .error .attributeError
    | some (host, port) =>
      let key := keyString host port tr.request.token
      match tr.response with
      | none => .error .attributeError
      | some resp =>
        let oversized := match resp.payload with
          | some p => p.length > MAX_PAYLOAD
          | none => false
        if ((lookupT st1.block2_receive key).isSome && resp.payload.isSome) || oversized then
          let nms : Nat × Nat × Nat := match lookupT st1.block2_receive key with
            | some e => e.block_options
            | none => (0, 1, MAX_PAYLOAD)
          let num := nms.1
          let entry := BlockItem.make nms.1 nms.2.1 nms.2.2 resp.payload resp.content_type
            (some st1.session_timeout) now
          let resp1 := if (tr.request.size2 = some 0) || oversized then
              { resp with size2 := some entry.total_size }
            else resp
          let resp2 := { resp1 with block2 := none }
          let acc := entry.getIdx num now
          let entry1 := acc.1
          let resp3 := match acc.2 with
            | some frag => { resp2 with payload := frag.payload, block2 := some frag.bo }
            | none => { resp2 with payload := none, block2 := some nms }
          .ok ({ st1 with block2_receive := insertT st1.block2_receive key entry1 },
               { tr with response := some resp3 })
        else
          .ok (st1, tr)

/-- Embeds `BlockLayer.send_request` (lines 418-458): sweep, key
derivation from the request destination and token.  A block2 request
records a fresh payload-less entry; a request with a block1 option or an
oversized payload is sliced from `(0, 1, size)` — with `size` the block1
size when present, else `MAX_PAYLOAD` — and the request is rewritten to
carry fragment 0 (for a null or empty payload the entry has no fragments
and the access `self._block1_sent[key_token][num]` at line 452 raises an
uncaught `IndexError`).  A request without a destination raises at the
tuple unpacking of line 433. -/
def send_request (st : LayerState) (req : Msg) (now : Int) :
    Except PyErr (LayerState × Msg) :=
  match cleanSession st now with
  | .error e => .error e
  | .ok st1 =>
    match req.destination with
    | none => .error .attributeError
    | some (host, port) =>
      let key := keyString host port req.token
      match req.block2 with
      | some (num, m, size) =>
        let entry := BlockItem.make num m size none none (some st1.session_timeout) now
        .ok ({ st1 with block2_sent := insertT st1.block2_sent key entry }, req)
      | none =>
        let oversized := match req.payload with
          | some p => p.length > MAX_PAYLOAD
          | none => false
        if req.block1.isSome || oversized then
          let size := match req.block1 with
            | some (_n, _m, s) => s
            | none => MAX_PAYLOAD
          let item := BlockItem.make 0 1 size req.payload req.content_type
            (some st1.session_timeout) now
          let acc := item.getIdx 0 now
          let item1 := acc.1
          match acc.2 with
          | none => .error .indexError
          | some frag =>
            .ok ({ st1 with block1_sent := insertT st1.block1_sent key item1 },
                 { req with
                   payload := frag.payload
                   block1 := some frag.bo
                   size1 := some item1.total_size })
        else
          .ok (st1, req)

/-! Concrete fixtures used by the per-claim witness and counterexample
theorems below.  Each fixture is an explicit input to the embedded
functions; times are chosen so that nothing is expired unless the fixture
name says so. -/

/-- A one-fragment outbound PUT/POST transfer of the 2-byte payload "ab"
at block size 4 (so a single unacknowledged fragment), as stored in
`_block1_sent` by `send_request`. -/
def fixItemAB : BlockItem := BlockItem.make 0 1 4 (some ['a', 'b']) (some 0) (some 180) 0

/-- The incoming response acknowledging block 0 of `fixItemAB`, paired
with its follow-up request. -/
def fixTrResp : Transaction :=
  { request := { emptyMsg with mid := some 5, block1 := some (0, 1, 4) }
    response := some { emptyMsg with
      source := some ("h", 1)
      token := some "t"
      block1 := some (0, 0, 4) }
    block_transfer := false }

/-- A layer state whose `_block1_sent` holds `fixItemAB` under the key of
the `fixTrResp` response source and token. -/
def fixStB1Sent : LayerState := ⟨180, [("h1t", fixItemAB)], [], [], []⟩

/-- An entry whose 180 s timeout has lapsed at time 200 (created and last
accessed at time 0). -/
def fixItemExpired : BlockItem := BlockItem.make 0 0 16 none none (some 180) 0

/-- A layer state holding only the expired entry. -/
def fixStExpired : LayerState := ⟨180, [("k", fixItemExpired)], [], [], []⟩

/-- An in-progress inbound PUT/POST entry with recorded content-type 0. -/
def fixEntryCt0 : BlockItem := BlockItem.make 0 1 4 none (some 0) (some 180) 0

/-- A follow-up PUT fragment whose content-type 41 differs from the
recorded content-type 0 of `fixEntryCt0`. -/
def fixTrCtMismatch : Transaction :=
  { request := { emptyMsg with
      source := some ("h", 1)
      token := some "t"
      content_type := some 41
      block1 := some (1, 1, 4) }
    response := none
    block_transfer := false }

/-- Fixture `fixTrCtMismatch` as `receive_request` has rewritten it at the point
of the mismatch error: `block_transfer` reset and block1 stripped. -/
def fixTrCtMismatchStripped : Transaction :=
  { fixTrCtMismatch with
    block_transfer := false
    request := { fixTrCtMismatch.request with block1 := none } }

/-- A layer state whose `_block1_receive` holds `fixEntryCt0` under the
key of the `fixTrCtMismatch` request. -/
def fixStB1Recv : LayerState := ⟨180, [], [], [("h1t", fixEntryCt0)], []⟩

/-- A 4-fragment transfer at block size 16 with declared total size 64 of
which only fragment 0 (16 bytes) has been received. -/
def fixItemSparse : BlockItem :=
  ((((BlockItem.make 0 1 16 none none none 0).setTotalSize 64).setIdx 0
      ⟨some (List.replicate 16 'x'), some 0, (0, 1, 16), none⟩ 0).getD
    ((BlockItem.make 0 1 16 none none none 0).setTotalSize 64))

/-- A 3-fragment state whose cursor sits on an acknowledged fragment 1,
with fragment 2 unacknowledged. -/
def fixItemCursor : BlockItem :=
  { fixItemAB with
    bo_num := 1
    parts := fixItemAB.parts ++
      [⟨some ['z'], some 0, (1, 0, 4), some true⟩, ⟨some ['w'], some 0, (2, 1, 4), none⟩] }

/-- An outgoing request carrying a block1 option but no payload. -/
def fixReqNoPayload : Msg :=
  { emptyMsg with destination := some ("h", 1), token := some "t", block1 := some (0, 0, 64) }

/-- The empty layer state with the default 180 s session timeout. -/
def fixStEmpty : LayerState := ⟨180, [], [], [], []⟩

/-- The slices `P[i*S : (i+1)*S]` for `i < k`, as produced by the loop of
`_fill_partial_payload`. -/
def sliceList (P : List Char) (S k : Nat) : List (List Char) :=
  (List.range k).map (fun i => (P.drop (i * S)).take S)

/-- No entry of the table is a complete transfer.  The layer maintains
this for `_block1_receive` (across `receive_request`) and `_block2_sent`
(across `receive_response`): an entry that becomes complete during a
normally returning call is deleted before the call returns. -/
def noCompleteEntry (tbl : Table) : Prop :=
  ∀ kv ∈ tbl, (kv : String × BlockItem).2.complete = false

/-- A mid-transfer inbound PUT entry: total size 8 declared at block size
4, fragment 0 ("ab") received and acknowledged, fragment 1 pending. -/
def fixEntryRecvHalf : BlockItem :=
  ((((BlockItem.make 0 1 4 none (some 0) (some 180) 0).setTotalSize 8).setIdx 0
      ⟨some ['a', 'b'], some 0, (0, 1, 4), none⟩ 0).getD
    ((BlockItem.make 0 1 4 none (some 0) (some 180) 0).setTotalSize 8)).ackAt 0 0

/-- The final PUT fragment (index 1 of 2) completing
`fixEntryRecvHalf`. -/
def fixTrFinalFrag : Transaction :=
  { request := { emptyMsg with
      source := some ("h", 1)
      token := some "t"
      content_type := some 0
      block1 := some (1, 0, 4)
      payload := some ['c', 'd'] }
    response := none
    block_transfer := false }

/-- A layer state whose `_block1_receive` holds `fixEntryRecvHalf`. -/
def fixStB1RecvHalf : LayerState := ⟨180, [], [], [("h1t", fixEntryRecvHalf)], []⟩

/-! Helper lemmas about ceiling division and payload slicing. -/

theorem le_ceil_mul (T S : Nat) (hS : 0 < S) : T ≤ ((T + S - 1) / S) * S := by
  have h := Nat.div_add_mod (T + S - 1) S
  have h2 : (T + S - 1) % S < S := Nat.mod_lt _ hS
  have h3 : ((T + S - 1) / S) * S = S * ((T + S - 1) / S) := Nat.mul_comm _ _
  omega

theorem ceil_pos (T S : Nat) (hT : 0 < T) (hS : 0 < S) : 0 < (T + S - 1) / S :=
  Nat.div_pos (by omega) hS

theorem flatten_sliceList (P : List Char) (S : Nat) :
    ∀ k, (sliceList P S k).flatten = P.take (k * S) := by
  intro k
  induction k with
  | zero => simp [sliceList]
  | succ n ih =>
    rw [sliceList, List.range_succ, List.map_append, List.flatten_append]
    have hn : ((List.range n).map (fun i => (P.drop (i * S)).take S)).flatten
        = P.take (n * S) := ih
    rw [hn]
    simp only [List.map_cons, List.map_nil, List.flatten_cons, List.flatten_nil,
      List.append_nil]
    rw [← List.take_add, Nat.succ_mul]

theorem fill_parts_length (it : BlockItem) (pl : Option (List Char)) :
    (it.fillPartialPayload pl).parts.length = (it.total_size + it.bo_size - 1) / it.bo_size := by
  simp [BlockItem.fillPartialPayload]

theorem fill_parts_getElem? (it : BlockItem) (pl : Option (List Char)) (i : Nat)
    (hi : i < (it.total_size + it.bo_size - 1) / it.bo_size) :
    (it.fillPartialPayload pl).parts[i]? =
      some { payload := pl.map (fun p => (p.drop (i * it.bo_size)).take it.bo_size)
             content_type := it.content_type
             bo := (i, if i + 1 < (it.total_size + it.bo_size - 1) / it.bo_size then 1 else 0,
                    it.bo_size)
             ack := none } := by
  simp [BlockItem.fillPartialPayload, List.getElem?_map, List.getElem?_range hi]

theorem fill_parts_str (it : BlockItem) (P : List Char) :
    ((it.fillPartialPayload (some P)).parts.map PayloadBlock.str) =
      sliceList P it.bo_size ((it.total_size + it.bo_size - 1) / it.bo_size) := by
  simp [BlockItem.fillPartialPayload, List.map_map, PayloadBlock.str, sliceList,
    Function.comp]

theorem fill_none_str (it : BlockItem) :
    ((it.fillPartialPayload none).parts.map PayloadBlock.str).flatten = [] := by
  simp [BlockItem.fillPartialPayload, List.map_map, PayloadBlock.str, Function.comp]

/-- Claim C1.  For every non-empty payload `P` and positive block size
`S`, constructing a `BlockItem` with payload `P` and block size `S`
produces exactly `ceil(len(P)/S)` fragments; fragment `i` holds the bytes
`P[i*S : (i+1)*S]` with its block-option triple `(i, m, S)` where the
more-flag `m` is 1 on every fragment but the last and 0 on the last; and
the reassembled `payload` property returns exactly `P`. -/
theorem c1_fragment_roundtrip (P : List Char) (S n m : Nat) (ct : Option Nat)
    (tmo : Option Int) (now : Int) (hP : P ≠ []) (hS : 0 < S) :
    (BlockItem.make n m S (some P) ct tmo now).parts.length = (P.length + S - 1) / S ∧
    (∀ i, i < (P.length + S - 1) / S →
      (BlockItem.make n m S (some P) ct tmo now).parts[i]? =
        some { payload := some ((P.drop (i * S)).take S)
               content_type := ct
               bo := (i, if i + 1 < (P.length + S - 1) / S then 1 else 0, S)
               ack := none }) ∧
    (∀ i, i + 1 < (P.length + S - 1) / S →
      ((BlockItem.make n m S (some P) ct tmo now).parts.getD i pbDefault).bo.2.1 = 1) ∧
    ((BlockItem.make n m S (some P) ct tmo now).parts.getD
        ((P.length + S - 1) / S - 1) pbDefault).bo.2.1 = 0 ∧
    (BlockItem.make n m S (some P) ct tmo now).payload = some P := by
  have hlen : 0 < P.length := List.length_pos.mpr hP
  have hmk : BlockItem.make n m S (some P) ct tmo now =
      ({ bo_num := n, bo_m := m, bo_size := S, content_type := ct
         creation_time := now, last_access := now, timeout := tmo
         total_size := P.length, parts := [] } : BlockItem).fillPartialPayload (some P) := by
    simp [BlockItem.make, hlen]
  set it0 : BlockItem :=
    { bo_num := n, bo_m := m, bo_size := S, content_type := ct
      creation_time := now, last_access := now, timeout := tmo
      total_size := P.length, parts := [] } with hit0
  have hcount : (it0.total_size + it0.bo_size - 1) / it0.bo_size = (P.length + S - 1) / S := rfl
  have hlength : (it0.fillPartialPayload (some P)).parts.length = (P.length + S - 1) / S := by
    rw [fill_parts_length, hcount]
  have hcpos : 0 < (P.length + S - 1) / S := ceil_pos _ _ hlen hS
  have hget : ∀ i, i < (P.length + S - 1) / S →
      (it0.fillPartialPayload (some P)).parts[i]? =
        some { payload := some ((P.drop (i * S)).take S)
               content_type := ct
               bo := (i, if i + 1 < (P.length + S - 1) / S then 1 else 0, S)
               ack := none } := by
    intro i hi
    rw [fill_parts_getElem? it0 (some P) i (by rw [hcount]; exact hi)]
    simp [hcount]
  refine ⟨by rw [hmk]; exact hlength, by rw [hmk]; exact hget, ?_, ?_, ?_⟩
  · intro i hi
    rw [hmk]
    have h1 : i < (P.length + S - 1) / S := by omega
    have := hget i h1
    rw [List.getD_eq_getElem?_getD, this]
    simp [hi]
  · rw [hmk]
    have h1 : (P.length + S - 1) / S - 1 < (P.length + S - 1) / S := by omega
    have := hget _ h1
    rw [List.getD_eq_getElem?_getD, this]
    simp [show ¬((P.length + S - 1) / S - 1 + 1 < (P.length + S - 1) / S) by omega]
  · rw [hmk]
    unfold BlockItem.payload
    rw [fill_parts_str, hcount, flatten_sliceList]
    have hle : P.length ≤ ((P.length + S - 1) / S) * S := le_ceil_mul _ _ hS
    rw [List.take_of_length_le hle]
    simp [hlen]

/-- Witness for C1 at the concrete payload "abcde" and block size 2:
3 fragments, more-flags 1,1,0, and the payload round-trips. -/
theorem c1_fragment_roundtrip_witness :
    (BlockItem.make 0 1 2 (some ['a','b','c','d','e']) none none 0).parts.length = (5 + 2 - 1) / 2 ∧
    ((BlockItem.make 0 1 2 (some ['a','b','c','d','e']) none none 0).parts.getD
        ((5 + 2 - 1) / 2 - 1) pbDefault).bo.2.1 = 0 ∧
    (BlockItem.make 0 1 2 (some ['a','b','c','d','e']) none none 0).payload =
      some ['a','b','c','d','e'] := by
  have h := c1_fragment_roundtrip ['a','b','c','d','e'] 2 0 1 none none 0
    (by decide) (by decide)
  exact ⟨h.1, h.2.2.2.1, h.2.2.2.2⟩

/-- Counterexample to claim C2 as stated.  The early-negotiation
`BlockItem` that `receive_request` creates at line 230 —
`BlockItem(num, m, size, timeout=...)`, no payload, total size never
declared — is exactly a state whose fragment list is empty because the
total size is still unknown (the code represents an unknown total size
as 0: line 197 waits `while not total_size`).  The claim requires
`complete` to be false for it; the code returns true. -/
theorem c2_cex_empty_unknown_complete :
    (BlockItem.make 0 0 16 none none (some 180) 0).total_size = 0 ∧
    (BlockItem.make 0 0 16 none none (some 180) 0).parts = [] ∧
    (BlockItem.make 0 0 16 none none (some 180) 0).complete = true := by
  decide

/-- Claim C2 amended: `complete` is true iff every fragment's
acknowledged flag is `True`; an empty fragment list is always vacuously
complete, including when it is empty because the total size is still
unknown (the code represents an unknown total size as 0 and cannot
distinguish it from a known-empty transfer). -/
theorem c2_complete_iff_all_acked (it : BlockItem) :
    it.complete = true ↔ ∀ p ∈ it.parts, p.ack = some true := by
  simp [BlockItem.complete, List.all_eq_true]

/-- Counterexample to claim C5 as stated: the key derivation
concatenates `str(host) + str(port) + str(token)` before hashing, so the
distinct peers ("a", port 12, token "3") and ("a", port 1, token "23")
produce the identical string "a123" — and therefore the identical hash
key — refuting injectivity over (host, port, token). -/
theorem c5_cex_key_collision :
    keyString "a" 12 (some "3") = keyString "a" 1 (some "23") ∧
    (("a", 12, some "3") : String × Nat × Option String) ≠ ("a", 1, some "23") := by
  constructor
  · rfl
  · decide

/-- Claim C5 amended: the exchange-key derivation is NOT injective over
(host, port, token): it hashes the concatenation
`str(host) + str(port) + str(token)`, and distinct tuples can yield the
same concatenation, hence the same key for any hash function applied on
top — so two unrelated concurrent exchanges can address the same
TransferState entry. -/
theorem c5_key_not_injective :
    ∃ h1 p1 t1 h2 p2 t2,
      ((h1, p1, t1) : String × Nat × Option String) ≠ (h2, p2, t2) ∧
      keyString h1 p1 t1 = keyString h2 p2 t2 ∧
      ∀ pyhash : String → Int, pyhash (keyString h1 p1 t1) = pyhash (keyString h2 p2 t2) := by
  refine ⟨"a", 12, some "3", "a", 1, some "23", by decide, rfl, fun pyhash => rfl⟩

/-- Every fragment created by a re-slice has an unknown (`None`)
acknowledged flag (`_fill_partial_payload` builds only fresh
`PayloadBlock` objects, line 73). -/
theorem fill_ack_none (it : BlockItem) (pl : Option (List Char)) :
    ∀ p ∈ (it.fillPartialPayload pl).parts, p.ack = none := by
  intro p hp
  simp only [BlockItem.fillPartialPayload, List.mem_map] at hp
  obtain ⟨i, _, rfl⟩ := hp
  rfl

/-- A re-slice with positive total size and positive block size yields an
incomplete state: at least one fragment exists and all are fresh. -/
theorem fill_complete_false (it : BlockItem) (pl : Option (List Char))
    (hT : 0 < it.total_size) (hS : 0 < it.bo_size) :
    (it.fillPartialPayload pl).complete = false := by
  have hlen : 0 < (it.fillPartialPayload pl).parts.length := by
    rw [fill_parts_length]
    exact ceil_pos _ _ hT hS
  rcases hx : (it.fillPartialPayload pl).parts with _ | ⟨p, rest⟩
  · rw [hx] at hlen; simp at hlen
  · have hp : p ∈ (it.fillPartialPayload pl).parts := by rw [hx]; exact List.mem_cons_self _ _
    have := fill_ack_none it pl p hp
    simp [BlockItem.complete, hx, this]

/-- Counterexample to claim C9 as stated: setting `total_size` to 0 on a
state with one fragment is a re-slice covered by the claim, but it
empties the fragment list, and `complete` on the result is (vacuously)
true, not false. -/
theorem c9_cex_total_size_zero :
    (BlockItem.make 0 1 16 (some ['a', 'b']) none none 0).parts.length = 1 ∧
    ((BlockItem.make 0 1 16 (some ['a', 'b']) none none 0).setTotalSize 0).complete = true := by
  decide

/-- Claim C9 amended: every re-slice (block-options setter with a changed
size, or the total-size setter) replaces all fragments with fresh ones
whose acknowledged flag is unknown (`None`); consequently `complete` is
false after a block-size change on a state with positive total size
(equivalently, with at least one fragment, for states built through the
constructor and setters) and after setting `total_size` to any positive
value — but setting `total_size` to 0 empties the fragment list and
leaves `complete` vacuously true. -/
theorem c9_reslice_discards_acks :
    (∀ (it : BlockItem) (pl : Option (List Char)),
      ∀ p ∈ (it.fillPartialPayload pl).parts, p.ack = none) ∧
    (∀ (it : BlockItem) (n m S' : Nat), 0 < it.total_size → 0 < S' → S' ≠ it.bo_size →
      (it.setBlockOptions (n, m, S')).complete = false) ∧
    (∀ (it : BlockItem) (v : Nat), 0 < v → 0 < it.bo_size →
      (it.setTotalSize v).complete = false) := by
  refine ⟨fill_ack_none, ?_, ?_⟩
  · intro it n m S' hT hS hne
    have : (it.setBlockOptions (n, m, S')).parts =
        (({ it with bo_size := S' } : BlockItem).fillPartialPayload it.payload).parts := by
      simp [BlockItem.setBlockOptions, hne]
    simp only [BlockItem.complete, this]
    have := fill_complete_false ({ it with bo_size := S' } : BlockItem) it.payload hT hS
    simpa [BlockItem.complete] using this
  · intro it v hv hS
    have := fill_complete_false ({ it with total_size := v } : BlockItem) none hv hS
    simpa [BlockItem.setTotalSize, BlockItem.complete] using this

/-- Witness for the amended C9 at concrete inputs: changing the block
size of the one-fragment transfer `fixItemAB` from 4 to 8 yields
`complete = false`, and declaring total size 32 on it also yields
`complete = false`. -/
theorem c9_reslice_discards_acks_witness :
    (fixItemAB.setBlockOptions (0, 1, 8)).complete = false ∧
    (fixItemAB.setTotalSize 32).complete = false := by
  exact ⟨c9_reslice_discards_acks.2.1 fixItemAB 0 1 8 (by decide) (by decide) (by decide),
         c9_reslice_discards_acks.2.2 fixItemAB 32 (by decide) (by decide)⟩

/-- The reassembled payload depends only on the fragment list. -/
theorem payload_congr (a b : BlockItem) (h : a.parts = b.parts) : a.payload = b.payload := by
  unfold BlockItem.payload
  rw [h]

/-- Counterexample to claim C6 as stated.  `fixItemSparse` holds 16
received bytes (fragment 0 of 4 at size 16, declared total 64).  The
smallest fragment count whose capacity covers the 16 received bytes at
the new size 32 is `ceil(16/32) = 1`, but the block-options setter
re-slices to `ceil(total_size/32) = 2` fragments: the count is computed
from the declared total size, not from the bytes received so far. -/
theorem c6_cex_count_from_total_size :
    ((fixItemSparse.parts.map PayloadBlock.str).flatten).length = 16 ∧
    (16 + 32 - 1) / 32 = 1 ∧
    (fixItemSparse.setBlockOptions (0, 1, 32)).parts.length = 2 := by
  refine ⟨by decide, by decide, by decide⟩

/-- Claim C6 amended: setting the block-option triple to a different
positive size `S'` re-slices so that the fragment count is
`ceil(total_size / S')` — determined by the declared total size, not by
the bytes received — and the reassembled payload property (the
concatenation, in index order, of all received fragment bytes) is
preserved exactly; the received bytes are re-sliced from offset zero of
the logical payload, so each byte keeps its original offset precisely
when the received fragments form a prefix of the transfer. -/
theorem c6_reslice_count_and_payload (it : BlockItem) (n m S' : Nat)
    (hS : 0 < S') (hne : S' ≠ it.bo_size)
    (hlen : ((it.parts.map PayloadBlock.str).flatten).length ≤ it.total_size) :
    (it.setBlockOptions (n, m, S')).parts.length = (it.total_size + S' - 1) / S' ∧
    (it.setBlockOptions (n, m, S')).payload = it.payload := by
  have hparts : (it.setBlockOptions (n, m, S')).parts =
      (({ it with bo_size := S' } : BlockItem).fillPartialPayload it.payload).parts := by
    simp [BlockItem.setBlockOptions, hne]
  have hpay : (it.setBlockOptions (n, m, S')).payload =
      (({ it with bo_size := S' } : BlockItem).fillPartialPayload it.payload).payload :=
    payload_congr _ _ hparts
  refine ⟨by rw [hparts, fill_parts_length], ?_⟩
  rcases hp : it.payload with _ | pl
  · rw [hpay, hp]
    unfold BlockItem.payload
    rw [fill_none_str]
    simp
  · have hpp : (if ((it.parts.map PayloadBlock.str).flatten).length > 0 then
        some ((it.parts.map PayloadBlock.str).flatten) else none) = some pl := hp
    have hc : ((it.parts.map PayloadBlock.str).flatten).length > 0 := by
      by_contra hc
      rw [if_neg hc] at hpp
      exact absurd hpp (by simp)
    have hfl1 : (it.parts.map PayloadBlock.str).flatten = pl := by
      rw [if_pos hc] at hpp
      exact Option.some.inj hpp
    have hfl2 : 0 < pl.length := hfl1 ▸ hc
    rw [hpay, hp]
    unfold BlockItem.payload
    rw [fill_parts_str, flatten_sliceList]
    dsimp only
    have hplen : pl.length ≤ it.total_size := by rw [← hfl1]; exact hlen
    have hle : pl.length ≤ ((it.total_size + S' - 1) / S') * S' :=
      le_trans hplen (le_ceil_mul _ _ hS)
    rw [List.take_of_length_le hle]
    simp [hfl2]

/-- Witness for the amended C6: re-slicing `fixItemSparse` (16 received
bytes, total 64) from size 16 to size 32 yields `ceil(64/32)` fragments
and leaves the reassembled payload unchanged. -/
theorem c6_reslice_count_and_payload_witness :
    (fixItemSparse.setBlockOptions (0, 1, 32)).parts.length =
      (fixItemSparse.total_size + 32 - 1) / 32 ∧
    (fixItemSparse.setBlockOptions (0, 1, 32)).payload = fixItemSparse.payload :=
  c6_reslice_count_and_payload fixItemSparse 0 1 32 (by decide) (by decide) (by decide)

/-- Reading `getD` at an in-range index gives the indexed element. -/
theorem getD_eq_getElem_of_lt (l : List PayloadBlock) (i : Nat) (h : i < l.length) :
    l.getD i pbDefault = l[i] := by
  rw [List.getD_eq_getElem?_getD, List.getElem?_eq_getElem h]
  rfl

/-- Every cyclic position is reachable from any in-range start in fewer
than `len` steps. -/
theorem cycle_cover (len cur idx : Nat) (hcur : cur < len) (hidx : idx < len) :
    ∃ j, j < len ∧ (cur + j) % len = idx := by
  refine ⟨(idx + len - cur) % len, Nat.mod_lt _ (by omega), ?_⟩
  rw [Nat.add_mod_mod]
  have h1 : cur + (idx + len - cur) = idx + len := by omega
  rw [h1, Nat.add_mod_right, Nat.mod_eq_of_lt hidx]

/-- An incomplete state has an unacknowledged fragment at some index. -/
theorem exists_unacked_of_not_complete (it : BlockItem) (h1 : it.complete = false) :
    ∃ idx, idx < it.parts.length ∧ (it.parts.getD idx pbDefault).ack ≠ some true := by
  unfold BlockItem.complete at h1
  obtain ⟨x, hmem, hx⟩ := List.all_eq_false.mp h1
  obtain ⟨idx, hidx, heq⟩ := List.mem_iff_getElem.mp hmem
  refine ⟨idx, hidx, ?_⟩
  rw [getD_eq_getElem_of_lt _ _ hidx, heq]
  simpa using hx

/-- Characterization of the cyclic search loop: started in range with an
unacknowledged fragment within `fuel` cyclic steps, it stops at the first
cyclic offset holding an unacknowledged fragment. -/
theorem cyclicFind_spec (parts : List PayloadBlock) :
    ∀ (fuel cur : Nat), cur < parts.length →
      (∃ j, j < fuel ∧ (parts.getD ((cur + j) % parts.length) pbDefault).ack ≠ some true) →
      ∃ k, (∀ j, j < k → (parts.getD ((cur + j) % parts.length) pbDefault).ack = some true) ∧
        cyclicFind parts fuel cur = (cur + k) % parts.length ∧
        (parts.getD (cyclicFind parts fuel cur) pbDefault).ack ≠ some true := by
  intro fuel
  induction fuel with
  | zero =>
    intro cur _ hex
    obtain ⟨j, hj, _⟩ := hex
    omega
  | succ n ih =>
    intro cur hcur hex
    obtain ⟨j, hj, hunack⟩ := hex
    by_cases hack : (parts.getD cur pbDefault).ack = some true
    · have hlen : 0 < parts.length := by omega
      have hcur2 : (cur + 1) % parts.length < parts.length := Nat.mod_lt _ hlen
      have hshift : ∀ i : Nat, ((cur + 1) % parts.length + i) % parts.length =
          (cur + (i + 1)) % parts.length := by
        intro i
        rw [Nat.mod_add_mod]
        have : cur + 1 + i = cur + (i + 1) := by omega
        rw [this]
      have hj0 : j ≠ 0 := by
        intro h0
        rw [h0, Nat.add_zero, Nat.mod_eq_of_lt hcur] at hunack
        exact hunack hack
      obtain ⟨j2, rfl⟩ : ∃ j2, j = j2 + 1 := ⟨j - 1, by omega⟩
      have hex2 : ∃ jj, jj < n ∧
          (parts.getD (((cur + 1) % parts.length + jj) % parts.length) pbDefault).ack ≠
            some true := by
        refine ⟨j2, by omega, ?_⟩
        rw [hshift]
        exact hunack
      obtain ⟨k2, hkall, hkeq, hkun⟩ := ih ((cur + 1) % parts.length) hcur2 hex2
      have hstep : cyclicFind parts (n + 1) cur = cyclicFind parts n ((cur + 1) % parts.length) := by
        simp only [cyclicFind]
        rw [if_pos hack]
      refine ⟨k2 + 1, ?_, ?_, ?_⟩
      · intro i hi
        cases i with
        | zero => rw [Nat.add_zero, Nat.mod_eq_of_lt hcur]; exact hack
        | succ i2 =>
          have := hkall i2 (by omega)
          rw [hshift] at this
          exact this
      · rw [hstep, hkeq, hshift]
      · rw [hstep]
        exact hkun
    · have hstop : cyclicFind parts (n + 1) cur = cur := by
        simp only [cyclicFind]
        rw [if_neg hack]
      refine ⟨0, by intro j2 hj2; omega, ?_, ?_⟩
      · rw [hstop, Nat.add_zero, Nat.mod_eq_of_lt hcur]
      · rw [hstop]
        exact hack

/-- Claim C8.  For every incomplete state whose cursor is in range,
`next_block_options()` advances the cursor cyclically (zero or more
acknowledged fragments skipped, modulo the fragment count) to the first
unacknowledged fragment, sets the cursor more-flag to that fragment's own
stored more-flag, and returns the resulting `(num, more, size)` triple;
the advance terminates (the function returns a value rather than an
error) precisely because some fragment is unacknowledged. -/
theorem c8_next_block_options (it : BlockItem)
    (h1 : it.complete = false) (h2 : it.bo_num < it.parts.length) :
    ∃ it2 k frag,
      it.nextBlockOptions = .ok (it2, (it2.bo_num, it2.bo_m, it.bo_size)) ∧
      it2.parts = it.parts ∧ it2.bo_size = it.bo_size ∧ it2.total_size = it.total_size ∧
      it2.bo_num = (it.bo_num + k) % it.parts.length ∧
      (∀ j, j < k →
        (it.parts.getD ((it.bo_num + j) % it.parts.length) pbDefault).ack = some true) ∧
      it.parts.get? it2.bo_num = some frag ∧
      frag.ack ≠ some true ∧
      it2.bo_m = frag.bo.2.1 := by
  have hlen : 0 < it.parts.length := by omega
  obtain ⟨idx, hidx, hunack⟩ := exists_unacked_of_not_complete it h1
  obtain ⟨j, hjlen, hjeq⟩ := cycle_cover it.parts.length it.bo_num idx h2 hidx
  have hex : ∃ j2, j2 < it.parts.length ∧
      (it.parts.getD ((it.bo_num + j2) % it.parts.length) pbDefault).ack ≠ some true := by
    refine ⟨j, hjlen, ?_⟩
    rw [hjeq]
    exact hunack
  obtain ⟨k, hkall, hkeq, hkun⟩ := cyclicFind_spec it.parts it.parts.length it.bo_num h2 hex
  have hnumlt : cyclicFind it.parts it.parts.length it.bo_num < it.parts.length := by
    rw [hkeq]
    exact Nat.mod_lt _ hlen
  have hget : it.parts.get? (cyclicFind it.parts it.parts.length it.bo_num) =
      some (it.parts[cyclicFind it.parts it.parts.length it.bo_num]) := by
    rw [List.get?_eq_getElem?, List.getElem?_eq_getElem hnumlt]
  refine ⟨{ it with
      bo_num := cyclicFind it.parts it.parts.length it.bo_num
      bo_m := (it.parts[cyclicFind it.parts it.parts.length it.bo_num]).bo.2.1 },
    k, it.parts[cyclicFind it.parts it.parts.length it.bo_num],
    ?_, rfl, rfl, rfl, hkeq, hkall, hget, ?_, rfl⟩
  · unfold BlockItem.nextBlockOptions
    simp only [h1, Bool.false_eq_true, if_false, if_pos h2, hget]
  · have := hkun
    rw [getD_eq_getElem_of_lt _ _ hnumlt] at this
    exact this

/-- Witness for C8 at `fixItemCursor` (cursor on acknowledged fragment 1
of 3, fragment 2 unacknowledged): the hypotheses hold concretely and the
theorem applies. -/
theorem c8_next_block_options_witness :
    fixItemCursor.complete = false ∧
    fixItemCursor.bo_num < fixItemCursor.parts.length ∧
    (∃ it2 k frag,
      fixItemCursor.nextBlockOptions = .ok (it2, (it2.bo_num, it2.bo_m, fixItemCursor.bo_size)) ∧
      it2.parts = fixItemCursor.parts ∧ it2.bo_size = fixItemCursor.bo_size ∧
      it2.total_size = fixItemCursor.total_size ∧
      it2.bo_num = (fixItemCursor.bo_num + k) % fixItemCursor.parts.length ∧
      (∀ j, j < k →
        (fixItemCursor.parts.getD
          ((fixItemCursor.bo_num + j) % fixItemCursor.parts.length) pbDefault).ack = some true) ∧
      fixItemCursor.parts.get? it2.bo_num = some frag ∧
      frag.ack ≠ some true ∧
      it2.bo_m = frag.bo.2.1) :=
  ⟨by decide, by decide, c8_next_block_options fixItemCursor (by decide) (by decide)⟩

/-- Claim C10.  For every outgoing request carrying a block1 option but a
null (or empty) payload, `send_request` raises an uncaught `IndexError`:
the created `BlockItem` has total size 0 and therefore zero fragments,
and line 452 then reads fragment 0 — so the call errors instead of
returning a rewritten request. -/
theorem c10_send_request_index_error (st : LayerState) (req : Msg) (now : Int)
    (host : String) (port : Nat) (nb mb sb : Nat)
    (hclean : noneExpired st now = true)
    (hdst : req.destination = some (host, port))
    (hb2 : req.block2 = none)
    (hb1 : req.block1 = some (nb, mb, sb))
    (hpl : req.payload = none ∨ req.payload = some []) :
    send_request st req now = .error .indexError := by
  rcases hpl with hpl | hpl <;>
    simp [send_request, cleanSession, hclean, hdst, hb2, hb1, hpl,
      BlockItem.make, BlockItem.getIdx]

/-- Witness for C10: a block1 request with no payload at all against the
empty layer state. -/
theorem c10_send_request_index_error_witness :
    send_request fixStEmpty fixReqNoPayload 0 = .error .indexError :=
  c10_send_request_index_error fixStEmpty fixReqNoPayload 0 "h" 1 0 0 64
    (by decide) rfl rfl rfl (Or.inl rfl)

/-- Claim C7.  An incoming PUT/POST fragment whose content-type differs
from the one recorded in the existing inbound entry for the same key
makes `receive_request` return the synthesized `_error` transaction:
status "unsupported content format", RST message type, destination and
token echoed from the request, `block_transfer` true — while the layer
state, in particular the stored entry with all its fragment bytes, is
returned unchanged (not deleted). -/
theorem c7_content_type_mismatch (st : LayerState) (tr : Transaction) (now : Int)
    (host : String) (port : Nat) (nb mb sb : Nat) (entry : BlockItem)
    (hclean : noneExpired st now = true)
    (hsrc : tr.request.source = some (host, port))
    (hb2 : tr.request.block2 = none)
    (hb1 : tr.request.block1 = some (nb, mb, sb))
    (hent : lookupT st.block1_receive (keyString host port tr.request.token) = some entry)
    (hct : tr.request.content_type ≠ entry.content_type) :
    receive_request st tr now =
      .ok (st, errorTransaction
        { tr with block_transfer := false, request := { tr.request with block1 := none } }
        UNSUPPORTED_CONTENT_FORMAT) ∧
    (errorTransaction
        { tr with block_transfer := false, request := { tr.request with block1 := none } }
        UNSUPPORTED_CONTENT_FORMAT).block_transfer = true ∧
    (errorTransaction
        { tr with block_transfer := false, request := { tr.request with block1 := none } }
        UNSUPPORTED_CONTENT_FORMAT).response =
      some { emptyMsg with
        destination := tr.request.source
        mtype := some RST
        token := tr.request.token
        code := some UNSUPPORTED_CONTENT_FORMAT } ∧
    lookupT st.block1_receive (keyString host port tr.request.token) = some entry := by
  refine ⟨?_, rfl, rfl, hent⟩
  simp [receive_request, cleanSession, hclean, hsrc, hb2, hb1, receiveRequestB1, hent, hct]

/-- Witness for C7: second PUT fragment with content-type 41 against the
stored entry with content-type 0 (`fixStB1Recv`). -/
theorem c7_content_type_mismatch_witness :
    receive_request fixStB1Recv fixTrCtMismatch 10 =
      .ok (fixStB1Recv,
        errorTransaction fixTrCtMismatchStripped UNSUPPORTED_CONTENT_FORMAT) ∧
    lookupT fixStB1Recv.block1_receive (keyString "h" 1 (some "t")) = some fixEntryCt0 :=
  ⟨(c7_content_type_mismatch fixStB1Recv fixTrCtMismatch 10 "h" 1 1 1 4 fixEntryCt0
      (by decide) rfl rfl rfl (by decide) (by decide)).1,
   (c7_content_type_mismatch fixStB1Recv fixTrCtMismatch 10 "h" 1 1 1 4 fixEntryCt0
      (by decide) rfl rfl rfl (by decide) (by decide)).2.2.2⟩

/-- Counterexample to claim C4 as stated: `receive_empty` is one of the
five entry points, yet it performs no sweep — called on a state holding
an entry that is expired (here at time 200, 180 s timeout, last access
0), it returns the state with the expired entry still present instead of
removing it. -/
theorem c4_cex_receive_empty_no_sweep :
    fixItemExpired.expired 200 = true ∧
    receive_empty fixStExpired emptyMsg fixTrResp = (fixStExpired, fixTrResp) ∧
    lookupT (receive_empty fixStExpired emptyMsg fixTrResp).1.block1_sent "k" =
      some fixItemExpired := by
  exact ⟨by decide, rfl, by decide⟩

/-- Claim C4 amended: only `receive_request`, `receive_response`,
`send_response` and `send_request` begin with the expiry sweep;
`receive_empty` is a no-op pass-through that sweeps nothing.  Moreover,
under Python 3 the sweep itself only completes without error when no
entry is expired — `_clean_session` deletes from a dict while iterating
`items()`, so any expired entry makes it raise `RuntimeError` out of the
entry point — and a sweep that completes has removed nothing (there was
nothing expired) and leaves every table unchanged. -/
theorem c4_sweep_behavior :
    (∀ (st : LayerState) (now : Int), noneExpired st now = true →
      cleanSession st now = .ok st) ∧
    (∀ (st : LayerState) (now : Int), noneExpired st now = false →
      cleanSession st now = .error .runtimeError) ∧
    (∀ (st : LayerState) (tr : Transaction) (now : Int), noneExpired st now = false →
      receive_request st tr now = .error .runtimeError) ∧
    (∀ (st : LayerState) (tr : Transaction) (now : Int), noneExpired st now = false →
      receive_response st tr now = .error .runtimeError) ∧
    (∀ (st : LayerState) (tr : Transaction) (now : Int), noneExpired st now = false →
      send_response st tr now = .error .runtimeError) ∧
    (∀ (st : LayerState) (req : Msg) (now : Int), noneExpired st now = false →
      send_request st req now = .error .runtimeError) ∧
    (∀ (st : LayerState) (e : Msg) (tr : Transaction), receive_empty st e tr = (st, tr)) := by
  refine ⟨?_, ?_, ?_, ?_, ?_, ?_, fun _ _ _ => rfl⟩
  · intro st now h
    simp [cleanSession, h]
  · intro st now h
    simp [cleanSession, h]
  · intro st tr now h
    simp [receive_request, cleanSession, h]
  · intro st tr now h
    simp [receive_response, cleanSession, h]
  · intro st tr now h
    simp [send_response, cleanSession, h]
  · intro st req now h
    simp [send_request, cleanSession, h]

/-- Witness for the amended C4: on the expired fixture state,
`receive_request` raises `RuntimeError` from the sweep, while
`receive_empty` passes the state through unchanged. -/
theorem c4_sweep_behavior_witness :
    receive_request fixStExpired fixTrCtMismatch 200 = .error .runtimeError ∧
    receive_empty fixStExpired emptyMsg fixTrCtMismatch = (fixStExpired, fixTrCtMismatch) :=
  ⟨c4_sweep_behavior.2.2.1 fixStExpired fixTrCtMismatch 200 (by decide),
   c4_sweep_behavior.2.2.2.2.2.2 fixStExpired emptyMsg fixTrCtMismatch⟩

/-- Entries of an erased table are entries of the original table. -/
theorem mem_eraseT {tbl : Table} {k : String} {kv : String × BlockItem}
    (h : kv ∈ eraseT tbl k) : kv ∈ tbl := by
  induction tbl with
  | nil => simp [eraseT] at h
  | cons hd tl ih =>
    obtain ⟨k1, v1⟩ := hd
    unfold eraseT at h
    by_cases hk : k1 = k
    · rw [if_pos hk] at h
      exact List.mem_cons_of_mem _ h
    · rw [if_neg hk] at h
      rcases List.mem_cons.mp h with h1 | h2
      · rw [h1]
        exact List.mem_cons_self _ _
      · exact List.mem_cons_of_mem _ (ih h2)

/-- Entries after a dict assignment are old entries or the new binding. -/
theorem mem_insertT {tbl : Table} {k : String} {v : BlockItem} {kv : String × BlockItem}
    (h : kv ∈ insertT tbl k v) : kv ∈ tbl ∨ kv = (k, v) := by
  induction tbl with
  | nil =>
    unfold insertT at h
    rcases List.mem_cons.mp h with h1 | h1
    · exact Or.inr h1
    · simp at h1
  | cons hd tl ih =>
    obtain ⟨k1, v1⟩ := hd
    unfold insertT at h
    by_cases hk : k1 = k
    · rw [if_pos hk] at h
      rcases List.mem_cons.mp h with h1 | h2
      · exact Or.inr h1
      · exact Or.inl (List.mem_cons_of_mem _ h2)
    · rw [if_neg hk] at h
      rcases List.mem_cons.mp h with h1 | h2
      · rw [h1]
        exact Or.inl (List.mem_cons_self _ _)
      · rcases ih h2 with h3 | h3
        · exact Or.inl (List.mem_cons_of_mem _ h3)
        · exact Or.inr h3

theorem noCompleteEntry_eraseT {tbl : Table} (k : String)
    (h : noCompleteEntry tbl) : noCompleteEntry (eraseT tbl k) :=
  fun kv hkv => h kv (mem_eraseT hkv)

theorem noCompleteEntry_insertT {tbl : Table} {k : String} {v : BlockItem}
    (h : noCompleteEntry tbl) (hv : v.complete = false) :
    noCompleteEntry (insertT tbl k v) := by
  intro kv hkv
  rcases mem_insertT hkv with h1 | h1
  · exact h kv h1
  · rw [h1]
    exact hv

/-- Completion depends only on the fragment list. -/
theorem complete_congr (a b : BlockItem) (h : a.parts = b.parts) : a.complete = b.complete := by
  unfold BlockItem.complete
  rw [h]

/-- The call `next_block_options` only moves the cursor: the fragment list of the
returned state is unchanged. -/
theorem nextBlockOptions_parts {it it2 : BlockItem} {t : Nat × Nat × Nat}
    (h : it.nextBlockOptions = .ok (it2, t)) : it2.parts = it.parts := by
  unfold BlockItem.nextBlockOptions at h
  repeat' split at h
  all_goals dsimp only at h
  all_goals repeat' split at h
  all_goals first
    | (simp only [Except.ok.injEq, Prod.mk.injEq] at h
       obtain ⟨h1, _⟩ := h
       rw [← h1])
    | simp at h

/-- The GET branch of `receive_request` never touches
`_block1_receive`. -/
theorem receiveRequestGET_b1r {st : LayerState} {tr : Transaction} {num m size : Nat}
    {key : String} {now : Int} {st2 : LayerState} {tr2 : Transaction}
    (h : receiveRequestGET st tr num m size key now = .ok (st2, tr2)) :
    st2.block1_receive = st.block1_receive := by
  unfold receiveRequestGET at h
  repeat' split at h
  all_goals try dsimp only at h
  all_goals repeat' split at h
  all_goals first
    | exact Except.noConfusion h
    | (simp only [Except.ok.injEq, Prod.mk.injEq] at h
       obtain ⟨h1, _⟩ := h
       rw [← h1])

/-- The PUT/POST continuation of `receive_request` preserves the absence
of complete entries in `_block1_receive`: a transfer completed by this
fragment is erased, an incomplete one is stored incomplete. -/
theorem receiveRequestB1go_noComplete {st : LayerState} {tr : Transaction}
    {entry0 : BlockItem} {num m size : Nat} {key : String} {now : Int}
    {st2 : LayerState} {tr2 : Transaction}
    (h : receiveRequestB1go st tr entry0 num m size key now = .ok (st2, tr2))
    (hnc : noCompleteEntry st.block1_receive) : noCompleteEntry st2.block1_receive := by
  unfold receiveRequestB1go at h
  repeat' split at h
  all_goals try dsimp only at h
  all_goals repeat' split at h
  all_goals first
    | exact Except.noConfusion h
    | (simp only [Except.ok.injEq, Prod.mk.injEq] at h
       obtain ⟨h1, h2⟩ := h
       rw [← h1]
       first
         | exact noCompleteEntry_eraseT _ hnc
         | (rename_i hcompl
            exact noCompleteEntry_insertT hnc (Bool.eq_false_iff.mpr hcompl)))

/-- The PUT/POST branch of `receive_request` preserves the absence of
complete entries in `_block1_receive` (the mismatch error path leaves the
table untouched). -/
theorem receiveRequestB1_noComplete {st : LayerState} {tr : Transaction}
    {num m size : Nat} {key : String} {now : Int} {st2 : LayerState} {tr2 : Transaction}
    (h : receiveRequestB1 st tr num m size key now = .ok (st2, tr2))
    (hnc : noCompleteEntry st.block1_receive) : noCompleteEntry st2.block1_receive := by
  unfold receiveRequestB1 at h
  split at h
  · split at h
    · simp only [Except.ok.injEq, Prod.mk.injEq] at h
      obtain ⟨h1, _⟩ := h
      rw [← h1]
      exact hnc
    · exact receiveRequestB1go_noComplete h hnc
  · exact receiveRequestB1go_noComplete h hnc

/-- Claim C3, incoming-request path: across every normal return of
`receive_request`, if `_block1_receive` held no complete entry before the
call then it holds none after — an entry that becomes complete during the
call is deleted before the call returns. -/
theorem receive_request_noComplete {st : LayerState} {tr : Transaction} {now : Int}
    {st2 : LayerState} {tr2 : Transaction}
    (h : receive_request st tr now = .ok (st2, tr2))
    (hnc : noCompleteEntry st.block1_receive) : noCompleteEntry st2.block1_receive := by
  unfold receive_request at h
  rcases hcl : cleanSession st now with e | st1
  · rw [hcl] at h
    exact Except.noConfusion h
  · have hst1 : st1 = st := by
      unfold cleanSession at hcl
      split at hcl
      · exact (Except.ok.inj hcl).symm
      · exact Except.noConfusion hcl
    subst hst1
    rw [hcl] at h
    dsimp only at h
    rcases hsrc : tr.request.source with _ | ⟨host, port⟩ <;> rw [hsrc] at h
    · exact Except.noConfusion h
    · dsimp only at h
      rcases hb2 : tr.request.block2 with _ | ⟨⟨num, m, size⟩⟩ <;> rw [hb2] at h
      · rcases hb1 : tr.request.block1 with _ | ⟨⟨num, m, size⟩⟩ <;> rw [hb1] at h
        · simp only [Except.ok.injEq, Prod.mk.injEq] at h
          obtain ⟨h1, _⟩ := h
          rw [← h1]
          exact hnc
        · exact receiveRequestB1_noComplete h hnc
      · have := receiveRequestGET_b1r h
        rw [this]
        exact hnc

/-- The tail of the GET branch of `receive_response` preserves the
absence of complete entries in `_block2_sent`: a transfer completed by
this fragment is erased; otherwise the stored entry is incomplete (the
cursor move of `next_block_options` does not change the fragments). -/
theorem receiveResponseB2tail_noComplete {st : LayerState} {tr : Transaction} {resp : Msg}
    {entry1 : BlockItem} {num m size : Nat} {key : String} {now : Int}
    {st2 : LayerState} {tr2 : Transaction}
    (h : receiveResponseB2tail st tr resp entry1 num m size key now = .ok (st2, tr2))
    (hnc : noCompleteEntry st.block2_sent) : noCompleteEntry st2.block2_sent := by
  unfold receiveResponseB2tail at h
  rcases hset : entry1.setIdx num ⟨resp.payload, resp.content_type, (num, m, size), none⟩ now
    with _ | entry2 <;> rw [hset] at h
  · exact Except.noConfusion h
  · dsimp only at h
    by_cases hc : ((entry2.ackAt num now).setBlockOptions (num, m, size)).complete = true
    · rw [if_pos hc] at h
      simp only [Except.ok.injEq, Prod.mk.injEq] at h
      obtain ⟨h1, _⟩ := h
      rw [← h1]
      exact noCompleteEntry_eraseT _ hnc
    · rw [if_neg hc] at h
      rcases hnext : ((entry2.ackAt num now).setBlockOptions (num, m, size)).nextBlockOptions
        with e | ⟨entry4, triple⟩ <;> rw [hnext] at h
      · exact Except.noConfusion h
      · simp only [Except.ok.injEq, Prod.mk.injEq] at h
        obtain ⟨h1, _⟩ := h
        rw [← h1]
        refine noCompleteEntry_insertT hnc ?_
        rw [complete_congr _ _ (nextBlockOptions_parts hnext)]
        exact Bool.eq_false_iff.mpr hc

/-- The GET branch of `receive_response` preserves the absence of
complete entries in `_block2_sent` (the mismatch error path leaves the
table untouched). -/
theorem receiveResponseB2_noComplete {st : LayerState} {tr : Transaction} {resp : Msg}
    {num m size : Nat} {key : String} {now : Int} {st2 : LayerState} {tr2 : Transaction}
    (h : receiveResponseB2 st tr resp num m size key now = .ok (st2, tr2))
    (hnc : noCompleteEntry st.block2_sent) : noCompleteEntry st2.block2_sent := by
  unfold receiveResponseB2 at h
  split at h
  · split at h
    · split at h
      · simp only [Except.ok.injEq, Prod.mk.injEq] at h
        obtain ⟨h1, _⟩ := h
        rw [← h1]
        exact hnc
      · exact receiveResponseB2tail_noComplete h hnc
    · exact receiveResponseB2tail_noComplete h hnc
  · exact receiveResponseB2tail_noComplete h hnc

/-- The PUT/POST branch of `receive_response` never touches
`_block2_sent`. -/
theorem receiveResponseB1_b2sent {st : LayerState} {tr : Transaction} {entry0 : BlockItem}
    {n_num : Nat} {key : String} {now : Int} {st2 : LayerState} {tr2 : Transaction}
    (h : receiveResponseB1 st tr entry0 n_num key now = .ok (st2, tr2)) :
    st2.block2_sent = st.block2_sent := by
  unfold receiveResponseB1 at h
  repeat' split at h
  all_goals try dsimp only at h
  all_goals repeat' split at h
  all_goals first
    | exact Except.noConfusion h
    | (simp only [Except.ok.injEq, Prod.mk.injEq] at h
       obtain ⟨h1, _⟩ := h
       rw [← h1])

/-- Claim C3, incoming-response GET path: across every normal return of
`receive_response`, if `_block2_sent` held no complete entry before the
call then it holds none after — an entry that becomes complete during the
call is deleted before the call returns.  (The PUT/POST branch never
touches this table; the entry it completes lives in `_block1_sent` and
is NOT deleted — see the counterexample.) -/
theorem receive_response_noComplete {st : LayerState} {tr : Transaction} {now : Int}
    {st2 : LayerState} {tr2 : Transaction}
    (h : receive_response st tr now = .ok (st2, tr2))
    (hnc : noCompleteEntry st.block2_sent) : noCompleteEntry st2.block2_sent := by
  unfold receive_response at h
  rcases hcl : cleanSession st now with e | st1 <;> rw [hcl] at h
  · exact Except.noConfusion h
  · have hst1 : st1 = st := by
      unfold cleanSession at hcl
      split at hcl
      · exact (Except.ok.inj hcl).symm
      · exact Except.noConfusion hcl
    subst hst1
    dsimp only at h
    rcases hresp : tr.response with _ | resp <;> rw [hresp] at h
    · exact Except.noConfusion h
    · dsimp only at h
      rcases hsrc : resp.source with _ | ⟨host, port⟩ <;> rw [hsrc] at h
      · exact Except.noConfusion h
      · dsimp only at h
        rcases hb2 : resp.block2 with _ | ⟨⟨num, m, size⟩⟩ <;> rw [hb2] at h
        · repeat' split at h
          all_goals first
            | contradiction
            | exact Except.noConfusion h
            | (simp only [Except.ok.injEq, Prod.mk.injEq] at h
               obtain ⟨h1, _⟩ := h
               rw [← h1]
               exact hnc)
            | (rw [receiveResponseB1_b2sent h]; exact hnc)
        · dsimp only at h
          exact receiveResponseB2_noComplete h hnc

/-- Counterexample to claim C3 as stated.  `fixStB1Sent` holds the
one-fragment outbound transfer `fixItemAB` (not yet complete) in
`_block1_sent`; the incoming response `fixTrResp` acknowledges its only
fragment, so the transfer becomes complete during the call — this is the
incoming-response PUT/POST path — yet after the call returns normally
the entry is still in `_block1_sent` (and is complete): lines 350-351
delete only the request block1 option, not the table entry. -/
theorem c3_cex_block1_sent_entry_not_deleted :
    fixItemAB.complete = false ∧
    lookupT fixStB1Sent.block1_sent "h1t" = some fixItemAB ∧
    ((receive_response fixStB1Sent fixTrResp 0).toOption.map
      (fun r => (lookupT r.1.block1_sent "h1t").map BlockItem.complete)) = some (some true) := by
  refine ⟨by decide, by decide, by decide⟩

/-- Claim C3 amended: on the incoming-request PUT/POST path
(`_block1_receive`) and the incoming-response GET path (`_block2_sent`),
an entry that becomes complete during a normally returning entry-point
call is deleted from its session table before the call returns —
formally, both calls preserve the absence of complete entries in the
respective table.  On the incoming-response PUT/POST path, however, the
completed `_block1_sent` entry is NOT deleted: only the follow-up
request's block1 option is cleared, and the complete entry remains in
the table (third conjunct), to be removed only by the expiry sweep. -/
theorem c3_complete_entry_deletion :
    (∀ (st : LayerState) (tr : Transaction) (now : Int) (st2 : LayerState) (tr2 : Transaction),
      receive_request st tr now = .ok (st2, tr2) →
      noCompleteEntry st.block1_receive → noCompleteEntry st2.block1_receive) ∧
    (∀ (st : LayerState) (tr : Transaction) (now : Int) (st2 : LayerState) (tr2 : Transaction),
      receive_response st tr now = .ok (st2, tr2) →
      noCompleteEntry st.block2_sent → noCompleteEntry st2.block2_sent) ∧
    ((receive_response fixStB1Sent fixTrResp 0).toOption.map
      (fun r => (lookupT r.1.block1_sent "h1t").map BlockItem.complete)) = some (some true) :=
  ⟨fun _ _ _ _ _ h hnc => receive_request_noComplete h hnc,
   fun _ _ _ _ _ h hnc => receive_response_noComplete h hnc,
   by decide⟩

/-- Witness for the amended C3: the final PUT fragment completing
`fixEntryRecvHalf` returns normally and leaves `_block1_receive` free of
complete entries (the completed transfer was deleted during the call). -/
theorem c3_complete_entry_deletion_witness :
    ∃ st2 tr2, receive_request fixStB1RecvHalf fixTrFinalFrag 5 = .ok (st2, tr2) ∧
      noCompleteEntry st2.block1_receive := by
  have hpre : noCompleteEntry fixStB1RecvHalf.block1_receive := by
    unfold noCompleteEntry
    decide
  rcases heq : receive_request fixStB1RecvHalf fixTrFinalFrag 5 with e | ⟨st2, tr2⟩
  · cases e <;> exact absurd heq (by decide)
  · exact ⟨st2, tr2, rfl, c3_complete_entry_deletion.1 _ _ _ _ _ heq hpre⟩
